import Mathlib

/-!
Verification development for `src/utils/logger.ts` of the ingest-music
repository: a shallow embedding of the file-backed logger (levels,
configuration, the single append-mode log stream, the emitting
operations and the session lifecycle), followed by theorems settling
the specification claims.

Modelling conventions:
* The file system is a map from paths to file contents (a file is a
  flat string of bytes; appending is string concatenation).  The
  `console.error` fallback channel is a separate list of strings.
* `new Date().toISOString()` is modelled by passing the timestamp
  string of the moment of the call as an explicit argument.
* JavaScript values handed to `JSON.stringify` are modelled by the
  `JsVal` tree; `JSON.stringify` throws on values it cannot serialize
  (e.g. BigInt), modelled by `Except Unit`.
* Failures of `fs.mkdirSync` / `fs.createWriteStream` are decided by an
  environment `Env` consulted by `init`.
-/

/-- Log levels, from `type LogLevel = "debug" | "info" | "warn" | "error"`. -/
inductive LogLevel where
  | debug
  | info
  | warn
  | error
deriving DecidableEq, Repr

/-- Table `LOG_LEVEL_PRIORITY` from the source: debug=0, info=1, warn=2, error=3. -/
def LOG_LEVEL_PRIORITY : LogLevel → Nat
  | .debug => 0
  | .info => 1
  | .warn => 2
  | .error => 3

/-- Result of `level.toUpperCase()` on the four level strings. -/
def LogLevel.upper : LogLevel → String
  | .debug => "DEBUG"
  | .info => "INFO"
  | .warn => "WARN"
  | .error => "ERROR"

/-- Configuration record of the source interface: a required `level` and an optional `file` path. -/
structure LoggerConfig where
  level : LogLevel
  file : Option String
deriving DecidableEq, Repr

mutual
/-- JavaScript values passed as `unknown` payloads (`data?`, `body?`,
`response`).  `vBigInt` stands for the values `JSON.stringify` throws
on (BigInt, circular structures). -/
inductive JsVal where
  | vNull
  | vBool (b : Bool)
  | vNum (n : Int)
  | vStr (s : String)
  | vBigInt (n : Int)
  | vArr (xs : JsArr)
  | vObj (fs : JsObj)

/-- Spine of a JavaScript array value. -/
inductive JsArr where
  | nil
  | cons (v : JsVal) (rest : JsArr)

/-- Spine of a JavaScript object value (fields in insertion order, as
`Object.entries` iterates them). -/
inductive JsObj where
  | nil
  | cons (k : String) (v : JsVal) (rest : JsObj)
end

/-- JavaScript truthiness of a value (`if (body)`). -/
def JsVal.truthy : JsVal → Bool
  | .vNull => false
  | .vBool b => b
  | .vNum n => n != 0
  | .vStr s => s != ""
  | .vBigInt n => n != 0
  | .vArr _ => true
  | .vObj _ => true

/-- JSON string escaping used by `JSON.stringify` for string values. -/
def jsonEscapeChar (c : Char) : String :=
  if c = '"' then "\\\""
  else if c = '\\' then "\\\\"
  else if c = '\n' then "\\n"
  else if c = '\t' then "\\t"
  else if c = '\r' then "\\r"
  else String.singleton c

/-- A JSON-quoted string literal. -/
def jsonQuote (s : String) : String :=
  "\"" ++ String.join (s.data.map jsonEscapeChar) ++ "\""

/-- Indentation of `n` spaces, for the pretty-printing indent of `JSON.stringify(x, null, 2)`. -/
def indentSpaces (n : Nat) : String :=
  String.mk (List.replicate n ' ')

/-- Assemble the members of a JSON array/object the way `JSON.stringify`
does: compact (`JSON.stringify(x)`) or pretty with the current indent
(`JSON.stringify(x, null, 2)`). -/
def wrapMembers (pretty : Bool) (ind : Nat) (op cl : String) (parts : List String) : String :=
  match parts with
  | [] => op ++ cl
  | _ =>
    if pretty then
      op ++ "\n" ++
        String.intercalate ",\n" (parts.map (fun s => indentSpaces (ind + 2) ++ s)) ++
        "\n" ++ indentSpaces ind ++ cl
    else
      op ++ String.intercalate "," parts ++ cl

mutual
/-- Embedding of `JSON.stringify`, compact (`pretty = false`) or with indent 2
(`pretty = true`), at current indentation depth `ind`.  Throws
(`Except.error`) on non-serializable values. -/
def jsonRender (pretty : Bool) (ind : Nat) : JsVal → Except Unit String
  | .vNull => Except.ok "null"
  | .vBool b => Except.ok (if b then "true" else "false")
  | .vNum n => Except.ok (toString n)
  | .vStr s => Except.ok (jsonQuote s)
  | .vBigInt _ => Except.error ()
  | .vArr xs => do
      let parts ← jsonRenderArr pretty (ind + 2) xs
      Except.ok (wrapMembers pretty ind "[" "]" parts)
  | .vObj fs => do
      let parts ← jsonRenderObj pretty (ind + 2) fs
      Except.ok (wrapMembers pretty ind "\x7b" "\x7d" parts)

def jsonRenderArr (pretty : Bool) (ind : Nat) : JsArr → Except Unit (List String)
  | .nil => Except.ok []
  | .cons v rest => do
      let s ← jsonRender pretty ind v
      let others ← jsonRenderArr pretty ind rest
      Except.ok (s :: others)

def jsonRenderObj (pretty : Bool) (ind : Nat) : JsObj → Except Unit (List String)
  | .nil => Except.ok []
  | .cons k v rest => do
      let s ← jsonRender pretty ind v
      let others ← jsonRenderObj pretty ind rest
      Except.ok ((jsonQuote k ++ (if pretty then ": " else ":") ++ s) :: others)
end

/-- Embedding of `JSON.stringify(x)` (compact form, used by `logCurl`). -/
def jsonStringify (v : JsVal) : Except Unit String :=
  jsonRender false 0 v

/-- Embedding of `JSON.stringify(x, null, 2)` (pretty form, used by `debug`,
`error` and `logApiResponse`). -/
def jsonStringifyPretty (v : JsVal) : Except Unit String :=
  jsonRender true 0 v

/-- The external world: the file system (path to file contents) and the
fallback diagnostic channel (`console.error`). -/
structure World where
  files : String → Option String
  console : List String

/-- Read the contents of a file, if it exists. -/
def World.getFile (w : World) (p : String) : Option String :=
  w.files p

/-- An append-mode write: appends to the file at `p`, creating it (with
empty prior contents) if absent, exactly as `fs.createWriteStream`
with flag `"a"` behaves. -/
def World.appendFile (w : World) (p s : String) : World :=
  { w with files := fun q => if q = p then some (((w.files p).getD "") ++ s) else w.files q }

/-- Environment answering the file-system queries `init` makes:
whether the parent directory exists, whether `mkdirSync` fails, and
whether `createWriteStream` fails. -/
structure Env where
  dirExists : String → Bool
  mkdirFails : String → Bool
  openFails : String → Bool

/-- Embedding of `path.dirname`: the portion before the final path separator
(`"."` when there is none, `"/"` for a file at the root). -/
def dirname (p : String) : String :=
  match p.data.reverse.findIdx? (fun c => c = '/') with
  | none => "."
  | some i =>
    let keep := p.data.length - 1 - i
    if keep = 0 then "/" else String.mk (p.data.take keep)

/-- Default path `path.join(os.tmpdir(), "ingest-music.log")`. -/
def defaultLogPath : String := "/tmp/ingest-music.log"

/-- Resolution of `config.file || path.join(os.tmpdir(), ...)`: the
JavaScript `||` falls through on every falsy value, so an empty-string
path also selects the default. -/
def effectiveLogPath (cfg : LoggerConfig) : String :=
  match cfg.file with
  | some f => if f = "" then defaultLogPath else f
  | none => defaultLogPath

/-- Whether the `try` block of `init` fails: `mkdirSync` is attempted
only when the directory does not exist, and `createWriteStream` can
fail on the file path. -/
def initFailure (env : Env) (p : String) : Bool :=
  (!(env.dirExists (dirname p)) && env.mkdirFails (dirname p)) || env.openFails p

/-- Logger state: `private config` (default level info, no file) and
`private fileStream?: fs.WriteStream`, the stream modelled by the path
it appends to. -/
structure LoggerState where
  config : LoggerConfig
  fileStream : Option String
deriving DecidableEq, Repr

/-- Embedding of `Logger.init`: closes any existing stream (without writing anything),
replaces the configuration, resolves the effective path, ensures the
directory, opens the append stream and writes the session-start marker;
on failure reports to `console.error` and leaves no stream open. -/
def Logger.init (st : LoggerState) (w : World) (config : LoggerConfig) (env : Env) (ts : String) :
    LoggerState × World :=
  let logFilePath := effectiveLogPath config
  if initFailure env logFilePath then
    ({ config := config, fileStream := none },
     { w with console := w.console ++ ["Failed to open log file " ++ logFilePath ++ ":"] })
  else
    ({ config := config, fileStream := some logFilePath },
     w.appendFile logFilePath ("\n[" ++ ts ++ "] New session started\n"))

/-- Embedding of `Logger.shouldLog`: the priority of the level is at least the priority of the configured level. -/
def Logger.shouldLog (st : LoggerState) (level : LogLevel) : Bool :=
  decide (LOG_LEVEL_PRIORITY st.config.level ≤ LOG_LEVEL_PRIORITY level)

/-- Embedding of `Logger.formatMessage`: the bracketed timestamp, the bracketed upper-cased level, then the message. -/
def Logger.formatMessage (level : LogLevel) (message ts : String) : String :=
  "[" ++ ts ++ "] [" ++ level.upper ++ "] " ++ message

/-- Embedding of `Logger.write`: gated by `shouldLog`; appends the formatted record plus a newline to
the stream when one is open, otherwise discards. -/
def Logger.write (st : LoggerState) (w : World) (level : LogLevel) (message ts : String) : World :=
  if Logger.shouldLog st level then
    match st.fileStream with
    | some p => w.appendFile p (Logger.formatMessage level message ts ++ "\n")
    | none => w
  else w

/-- Embedding of `Logger.setDebug`: sets the configured level to debug when enabled and to info otherwise. -/
def Logger.setDebug (st : LoggerState) (enabled : Bool) : LoggerState :=
  { st with config := { st.config with level := if enabled then .debug else .info } }

/-- Embedding of `Logger.isDebugEnabled`: true exactly when the configured level is debug. -/
def Logger.isDebugEnabled (st : LoggerState) : Bool :=
  match st.config.level with
  | .debug => true
  | _ => false

/-- Embedding of `Logger.debug`: appends the pretty serialization of `data` (when
defined) to the message before handing it to `write`; the
serialization therefore runs even when the level gate inside `write`
would suppress the record. -/
def Logger.debug (st : LoggerState) (w : World) (message : String) (data : Option JsVal)
    (ts : String) : Except Unit World := do
  let fullMessage ←
    match data with
    | none => Except.ok message
    | some d => do
        let s ← jsonStringifyPretty d
        Except.ok (message ++ "\n" ++ s)
  Except.ok (Logger.write st w .debug fullMessage ts)

/-- Embedding of `Logger.info`. -/
def Logger.info (st : LoggerState) (w : World) (message ts : String) : World :=
  Logger.write st w .info message ts

/-- Embedding of `Logger.warn`. -/
def Logger.warn (st : LoggerState) (w : World) (message ts : String) : World :=
  Logger.write st w .warn message ts

/-- An `err?: unknown` argument to `Logger.error`: either an `Error`
instance (message and optional stack) or an arbitrary value. -/
inductive ErrArg where
  | errObj (message : String) (stack : Option String)
  | value (v : JsVal)

/-- Embedding of `Logger.error`: appends the error message and the stack (or the empty string) for
`Error` instances, otherwise the pretty serialization of the value. -/
def Logger.error (st : LoggerState) (w : World) (message : String) (err : Option ErrArg)
    (ts : String) : Except Unit World :=
  match err with
  | none => Except.ok (Logger.write st w .error message ts)
  | some (.errObj em stk) =>
      Except.ok (Logger.write st w .error (message ++ "\n" ++ em ++ "\n" ++ stk.getD "") ts)
  | some (.value v) => do
      let s ← jsonStringifyPretty v
      Except.ok (Logger.write st w .error (message ++ "\n" ++ s) ts)

/-- The `typeof body === "string" ? body : JSON.stringify(body)` step of
`logCurl`. -/
def jsBodyString : JsVal → Except Unit String
  | .vStr s => Except.ok s
  | v => jsonStringify v

/-- Embedding of `Logger.logCurl`: returns before any string building when debug is
not enabled; otherwise assembles the curl command (headers iterated in
entry order, the body segment only when the body is truthy) and passes
it through `debug`. -/
def Logger.logCurl (st : LoggerState) (w : World) (method url : String)
    (headers : Option (List (String × String))) (body : Option JsVal) (ts : String) :
    Except Unit World :=
  if !(Logger.shouldLog st .debug) then Except.ok w
  else do
    let base := "curl -X " ++ method ++ " \x27" ++ url ++ "\x27"
    let withHeaders :=
      match headers with
      | none => base
      | some hs =>
          hs.foldl (fun acc kv => acc ++ " \\\n  -H \x27" ++ kv.1 ++ ": " ++ kv.2 ++ "\x27") base
    let curl ←
      match body with
      | some b =>
          if b.truthy then do
            let bodyStr ← jsBodyString b
            Except.ok (withHeaders ++ " \\\n  -d \x27" ++ bodyStr ++ "\x27")
          else Except.ok withHeaders
      | none => Except.ok withHeaders
    Logger.debug st w ("API Call:\n" ++ curl) none ts

/-- Embedding of `Logger.logApiResponse`: returns before any serialization when debug
is not enabled; otherwise pretty-serializes the response and emits it
through `debug` labeled with the API name. -/
def Logger.logApiResponse (st : LoggerState) (w : World) (apiName : String) (response : JsVal)
    (ts : String) : Except Unit World :=
  if !(Logger.shouldLog st .debug) then Except.ok w
  else do
    let s ← jsonStringifyPretty response
    Logger.debug st w (apiName ++ " Response:\n" ++ s) none ts

/-- Embedding of `Logger.close`: when a stream is open, writes the session-end marker,
ends the stream and clears the handle; otherwise does nothing. -/
def Logger.close (st : LoggerState) (w : World) (ts : String) : LoggerState × World :=
  match st.fileStream with
  | some p =>
      ({ st with fileStream := none }, w.appendFile p ("[" ++ ts ++ "] Session ended\n"))
  | none => (st, w)

/-- One call to an emitting operation (the operations that can produce a
log record, as opposed to `init`, `close`, `setDebug`). -/
inductive EmitCall where
  | debug (msg : String) (data : Option JsVal) (ts : String)
  | info (msg ts : String)
  | warn (msg ts : String)
  | error (msg : String) (err : Option ErrArg) (ts : String)
  | logCurl (method url : String) (headers : Option (List (String × String)))
      (body : Option JsVal) (ts : String)
  | logApiResponse (name : String) (resp : JsVal) (ts : String)

/-- Run one emitting call against the logger state. -/
def runEmit (st : LoggerState) (w : World) : EmitCall → Except Unit World
  | .debug m d ts => Logger.debug st w m d ts
  | .info m ts => Except.ok (Logger.info st w m ts)
  | .warn m ts => Except.ok (Logger.warn st w m ts)
  | .error m e ts => Logger.error st w m e ts
  | .logCurl m u h b ts => Logger.logCurl st w m u h b ts
  | .logApiResponse n r ts => Logger.logApiResponse st w n r ts

/-- Run a sequence of emitting calls (aborting, like a thrown exception,
when one of them fails). -/
def runEmits (st : LoggerState) : World → List EmitCall → Except Unit World
  | w, [] => Except.ok w
  | w, c :: cs => do
      let w2 ← runEmit st w c
      runEmits st w2 cs

/-- The level-`l` basic emitting operation with no extra payload, used
to state the level-threshold claims uniformly. -/
def emitBare (l : LogLevel) (st : LoggerState) (w : World) (m ts : String) : Except Unit World :=
  match l with
  | .debug => Logger.debug st w m none ts
  | .info => Except.ok (Logger.info st w m ts)
  | .warn => Except.ok (Logger.warn st w m ts)
  | .error => Logger.error st w m none ts

/-- The lines of a text file: the segments of its contents separated by
newline characters (the spec-level notion used by the session-marker
claims). -/
def splitLinesAux : List Char → List Char → List String
  | [], acc => [String.mk acc.reverse]
  | c :: cs, acc =>
      if c = '\n' then String.mk acc.reverse :: splitLinesAux cs []
      else splitLinesAux cs (c :: acc)

/-- Lines of a string, splitting on `'\n'`. -/
def linesOf (s : String) : List String :=
  splitLinesAux s.data []

/-! ### Basic facts about the world and the gated write path -/

theorem getFile_appendFile_self (w : World) (p s : String) :
    (w.appendFile p s).getFile p = some (((w.getFile p).getD "") ++ s) := by
  simp [World.appendFile, World.getFile]

theorem getFile_appendFile_ne (w : World) (p q s : String) (h : q ≠ p) :
    (w.appendFile p s).getFile q = w.getFile q := by
  simp [World.appendFile, World.getFile, h]

theorem console_appendFile (w : World) (p s : String) :
    (w.appendFile p s).console = w.console := rfl

theorem shouldLog_iff (st : LoggerState) (l : LogLevel) :
    Logger.shouldLog st l = true ↔ LOG_LEVEL_PRIORITY st.config.level ≤ LOG_LEVEL_PRIORITY l := by
  simp [Logger.shouldLog]

theorem shouldLog_error_always (st : LoggerState) : Logger.shouldLog st .error = true := by
  rcases hl : st.config.level <;> simp only [Logger.shouldLog, hl] <;> decide

theorem write_not_should (st : LoggerState) (w : World) (l : LogLevel) (m ts : String)
    (h : Logger.shouldLog st l = false) : Logger.write st w l m ts = w := by
  simp [Logger.write, h]

theorem write_no_stream (st : LoggerState) (w : World) (l : LogLevel) (m ts : String)
    (h : st.fileStream = none) : Logger.write st w l m ts = w := by
  rcases hs : Logger.shouldLog st l <;> simp [Logger.write, hs, h]

theorem write_emits (st : LoggerState) (w : World) (l : LogLevel) (m ts p : String)
    (h1 : Logger.shouldLog st l = true) (h2 : st.fileStream = some p) :
    Logger.write st w l m ts = w.appendFile p (Logger.formatMessage l m ts ++ "\n") := by
  simp [Logger.write, h1, h2]

theorem debug_none_eq (st : LoggerState) (w : World) (m ts : String) :
    Logger.debug st w m none ts = Except.ok (Logger.write st w .debug m ts) := rfl

theorem error_none_eq (st : LoggerState) (w : World) (m ts : String) :
    Logger.error st w m none ts = Except.ok (Logger.write st w .error m ts) := rfl

/-! ### String and line helpers -/

theorem string_mk_data (s : String) : String.mk s.data = s := rfl

theorem empty_ne_bracket (ts suf : String) : ("" : String) ≠ "[" ++ ts ++ suf := by
  intro h
  have h2 := congrArg String.data h
  rw [String.data_append, String.data_append] at h2
  have h3 : "[".data = ['['] := rfl
  rw [h3] at h2
  simp at h2

theorem ne_of_data_suffix (a b : String) (l : List Char) (hb : l <:+ b.data)
    (ha : ¬ l <:+ a.data) : a ≠ b := by
  intro h
  subst h
  exact ha hb

theorem sessionEnd_suffix (ts : String) :
    "ended".data <:+ ("[" ++ ts ++ "] Session ended").data := by
  have h1 : ("[" ++ ts ++ "] Session ended").data
      = ("[" ++ ts).data ++ "] Session ended".data := String.data_append _ _
  rw [h1]
  exact List.IsSuffix.trans (by decide) (List.suffix_append _ _)

theorem splitLinesAux_clean (cs rest acc : List Char) (h : ∀ c ∈ cs, c ≠ '\n') :
    splitLinesAux (cs ++ '\n' :: rest) acc
      = String.mk (acc.reverse ++ cs) :: splitLinesAux rest [] := by
  induction cs generalizing acc with
  | nil => simp [splitLinesAux]
  | cons c cs ih =>
      have hc : c ≠ '\n' := h c (by simp)
      have step : splitLinesAux ((c :: cs) ++ '\n' :: rest) acc
          = splitLinesAux (cs ++ '\n' :: rest) (c :: acc) := by
        simp [splitLinesAux, hc]
      rw [step, ih (c :: acc) (fun x hx => h x (by simp [hx]))]
      simp

/-! ### Concrete fixtures used by witnesses and counterexamples -/

/-- Environment in which every directory exists and nothing fails. -/
def env0 : Env :=
  { dirExists := fun _ => true, mkdirFails := fun _ => false, openFails := fun _ => false }

/-- Environment in which the parent directory is missing and creating it fails. -/
def envFail : Env :=
  { dirExists := fun _ => false, mkdirFails := fun _ => true, openFails := fun _ => false }

/-- An empty file system and an empty console. -/
def w0 : World := { files := fun _ => none, console := [] }

/-- Initial state of the logger: level info, no file configured, no stream. -/
def st0 : LoggerState := { config := { level := .info, file := none }, fileStream := none }

/-- A logger with debug level and an open stream on `/l`. -/
def stDbg : LoggerState :=
  { config := { level := .debug, file := some "/l" }, fileStream := some "/l" }

/-- A logger with info level and an open stream on `/l`. -/
def stInfoStream : LoggerState :=
  { config := { level := .info, file := some "/l" }, fileStream := some "/l" }

/-- Configuration writing to `/a.log` at info level. -/
def cfgA : LoggerConfig := { level := .info, file := some "/a.log" }

/-- Configuration writing to `/b.log` at info level. -/
def cfgB : LoggerConfig := { level := .info, file := some "/b.log" }

/-! ### Shape lemmas for `init` and the emitting operations -/

@[simp] theorem exceptBindErr {α β : Type} (u : Unit) (f : α → Except Unit β) :
    (Except.error u >>= f) = Except.error () := rfl

@[simp] theorem exceptBindOk {α β : Type} (a : α) (f : α → Except Unit β) :
    (Except.ok a >>= f) = f a := rfl

theorem init_success (st : LoggerState) (w : World) (cfg : LoggerConfig) (env : Env)
    (ts : String) (h : initFailure env (effectiveLogPath cfg) = false) :
    Logger.init st w cfg env ts
      = ({ config := cfg, fileStream := some (effectiveLogPath cfg) },
         w.appendFile (effectiveLogPath cfg) ("\n[" ++ ts ++ "] New session started\n")) := by
  simp [Logger.init, h]

theorem init_fail_eq (st : LoggerState) (w : World) (cfg : LoggerConfig) (env : Env)
    (ts : String) (h : initFailure env (effectiveLogPath cfg) = true) :
    Logger.init st w cfg env ts
      = ({ config := cfg, fileStream := none },
         { w with console :=
             w.console ++ ["Failed to open log file " ++ effectiveLogPath cfg ++ ":"] }) := by
  simp [Logger.init, h]

theorem init_config (st : LoggerState) (w : World) (cfg : LoggerConfig) (env : Env)
    (ts : String) : (Logger.init st w cfg env ts).1.config = cfg := by
  rcases hf : initFailure env (effectiveLogPath cfg) with _ | _
  · rw [init_success st w cfg env ts hf]
  · rw [init_fail_eq st w cfg env ts hf]

theorem emitBare_eq_write (l : LogLevel) (st : LoggerState) (w : World) (m ts : String) :
    emitBare l st w m ts = Except.ok (Logger.write st w l m ts) := by
  cases l <;> rfl

theorem runEmit_no_stream (st : LoggerState) (w : World) (c : EmitCall)
    (h : st.fileStream = none) :
    runEmit st w c = Except.ok w ∨ runEmit st w c = Except.error () := by
  cases c with
  | debug m d ts =>
      cases d with
      | none => left; simp [runEmit, debug_none_eq, write_no_stream st w _ m ts h]
      | some v =>
          rcases hv : jsonStringifyPretty v with u | s
          · right; simp [runEmit, Logger.debug, hv]
          · left; simp [runEmit, Logger.debug, hv, write_no_stream st w _ _ ts h]
  | info m ts => left; simp [runEmit, Logger.info, write_no_stream st w _ m ts h]
  | warn m ts => left; simp [runEmit, Logger.warn, write_no_stream st w _ m ts h]
  | error m e ts =>
      cases e with
      | none => left; simp [runEmit, error_none_eq, write_no_stream st w _ m ts h]
      | some a =>
          cases a with
          | errObj em stk =>
              left; simp [runEmit, Logger.error, write_no_stream st w _ _ ts h]
          | value v =>
              rcases hv : jsonStringifyPretty v with u | s
              · right; simp [runEmit, Logger.error, hv]
              · left; simp [runEmit, Logger.error, hv, write_no_stream st w _ _ ts h]
  | logCurl m u hdrs b ts =>
      rcases hg : Logger.shouldLog st .debug with _ | _
      · left; simp [runEmit, Logger.logCurl, hg]
      · cases b with
        | none =>
            left
            simp [runEmit, Logger.logCurl, hg, debug_none_eq, write_no_stream st w _ _ ts h]
        | some v =>
            rcases hv : v.truthy with _ | _
            · left
              simp [runEmit, Logger.logCurl, hg, hv, debug_none_eq,
                write_no_stream st w _ _ ts h]
            · rcases hb : jsBodyString v with u | s
              · right; simp [runEmit, Logger.logCurl, hg, hv, hb]
              · left
                simp [runEmit, Logger.logCurl, hg, hv, hb, debug_none_eq,
                  write_no_stream st w _ _ ts h]
  | logApiResponse n r ts =>
      rcases hg : Logger.shouldLog st .debug with _ | _
      · left; simp [runEmit, Logger.logApiResponse, hg]
      · rcases hv : jsonStringifyPretty r with u | s
        · right; simp [runEmit, Logger.logApiResponse, hg, hv]
        · left
          simp [runEmit, Logger.logApiResponse, hg, hv, debug_none_eq,
            write_no_stream st w _ _ ts h]

theorem runEmits_no_stream (st : LoggerState) (h : st.fileStream = none) :
    ∀ (calls : List EmitCall) (w w3 : World), runEmits st w calls = Except.ok w3 → w3 = w := by
  intro calls
  induction calls with
  | nil =>
      intro w w3 hw
      simp [runEmits] at hw
      exact hw.symm
  | cons c cs ih =>
      intro w w3 hw
      rcases runEmit_no_stream st w c h with hc | hc
      · simp [runEmits, hc] at hw
        exact ih w w3 hw
      · simp [runEmits, hc] at hw

/-! ### Claim C3: level threshold gating and record format -/

/-- C3: for levels L1 < L2, after `initialize({level: L2})` the
L1-emitting operation writes no bytes (the world is unchanged); and for
any level at or above the threshold with a stream open, exactly one
record `"[<ts>] [<LEVEL>] <message>"` plus a newline is appended. -/
theorem C3_level_gate (L1 L2 L : LogLevel) (st : LoggerState) (w : World) (cfg : LoggerConfig)
    (env : Env) (ts0 m ts p : String) :
    (LOG_LEVEL_PRIORITY L1 < LOG_LEVEL_PRIORITY L2 → cfg.level = L2 →
      emitBare L1 (Logger.init st w cfg env ts0).1 (Logger.init st w cfg env ts0).2 m ts
        = Except.ok (Logger.init st w cfg env ts0).2) ∧
    (Logger.shouldLog st L = true → st.fileStream = some p →
      emitBare L st w m ts
        = Except.ok (w.appendFile p (("[" ++ ts ++ "] [" ++ L.upper ++ "] " ++ m) ++ "\n"))) := by
  constructor
  · intro hlt hcfg
    rw [emitBare_eq_write]
    have hns : Logger.shouldLog (Logger.init st w cfg env ts0).1 L1 = false := by
      simp only [Logger.shouldLog, init_config, hcfg]
      exact decide_eq_false (by omega)
    rw [write_not_should _ _ _ _ _ hns]
  · intro hsl hstream
    rw [emitBare_eq_write, write_emits st w L m ts p hsl hstream]
    rfl

/-- Witness for C3 at concrete levels: an info record is suppressed under
a warn threshold, and an error record is appended in full under an open
stream. -/
theorem C3_witness :
    emitBare .info (Logger.init st0 w0 { level := .warn, file := some "/a.log" } env0 "t0").1
        (Logger.init st0 w0 { level := .warn, file := some "/a.log" } env0 "t0").2 "m" "t1"
      = Except.ok (Logger.init st0 w0 { level := .warn, file := some "/a.log" } env0 "t0").2 ∧
    emitBare .error stInfoStream w0 "m" "t1"
      = Except.ok
          (w0.appendFile "/l" (("[" ++ "t1" ++ "] [" ++ LogLevel.error.upper ++ "] " ++ "m") ++ "\n")) :=
  ⟨(C3_level_gate .info .warn .error st0 w0 { level := .warn, file := some "/a.log" } env0
      "t0" "m" "t1" "/l").1 (by decide) rfl,
   (C3_level_gate .info .warn .error stInfoStream w0 { level := .warn, file := some "/a.log" }
      env0 "t0" "m" "t1" "/l").2 (by decide) rfl⟩

/-! ### Claim C4: initialization failure policy -/

/-- C4: `init` never raises (it is a total function); on failure the
error goes to the console fallback channel, no file is touched, no
stream is open and all subsequent writes are no-ops; on success exactly
one stream is open and the console is untouched; in every case the
stored configuration becomes the supplied one. -/
theorem C4_init_degrades (st : LoggerState) (w : World) (cfg : LoggerConfig) (env : Env)
    (ts : String) :
    (Logger.init st w cfg env ts).1.config = cfg ∧
    (initFailure env (effectiveLogPath cfg) = true →
      (Logger.init st w cfg env ts).1.fileStream = none ∧
      (Logger.init st w cfg env ts).2.files = w.files ∧
      (Logger.init st w cfg env ts).2.console
        = w.console ++ ["Failed to open log file " ++ effectiveLogPath cfg ++ ":"] ∧
      ∀ (l : LogLevel) (m ts2 : String),
        Logger.write (Logger.init st w cfg env ts).1 (Logger.init st w cfg env ts).2 l m ts2
          = (Logger.init st w cfg env ts).2) ∧
    (initFailure env (effectiveLogPath cfg) = false →
      (Logger.init st w cfg env ts).1.fileStream = some (effectiveLogPath cfg) ∧
      (Logger.init st w cfg env ts).2.console = w.console) := by
  refine ⟨init_config st w cfg env ts, ?_, ?_⟩
  · intro hf
    rw [init_fail_eq st w cfg env ts hf]
    refine ⟨rfl, rfl, rfl, ?_⟩
    intro l m2 ts2
    exact write_no_stream _ _ _ _ _ rfl
  · intro hf
    rw [init_success st w cfg env ts hf]
    exact ⟨rfl, rfl⟩

/-- Witness for C4: a failing directory creation reports to the console,
leaves no stream and makes writes no-ops; a successful one opens the
stream on the resolved path. -/
theorem C4_witness :
    (Logger.init st0 w0 cfgA envFail "t0").1.config = cfgA ∧
    (Logger.init st0 w0 cfgA envFail "t0").1.fileStream = none ∧
    (Logger.init st0 w0 cfgA envFail "t0").2.files = w0.files ∧
    (Logger.init st0 w0 cfgA envFail "t0").2.console
      = w0.console ++ ["Failed to open log file " ++ effectiveLogPath cfgA ++ ":"] ∧
    Logger.write (Logger.init st0 w0 cfgA envFail "t0").1 (Logger.init st0 w0 cfgA envFail "t0").2
        .info "m" "t1" = (Logger.init st0 w0 cfgA envFail "t0").2 ∧
    (Logger.init st0 w0 cfgA env0 "t0").1.fileStream = some (effectiveLogPath cfgA) :=
  have hfail := C4_init_degrades st0 w0 cfgA envFail "t0"
  have hok := C4_init_degrades st0 w0 cfgA env0 "t0"
  have hf := hfail.2.1 (by decide)
  ⟨hfail.1, hf.1, hf.2.1, hf.2.2.1, hf.2.2.2 .info "m" "t1", (hok.2.2 (by decide)).1⟩

/-! ### Claim C6: close semantics and quiescence afterwards -/

/-- C6: `close` on an open stream writes the session-end marker and
clears the handle; a second `close` is a no-op; and after `close` no
sequence of emitting calls changes the world at all (in particular the
previously open file receives no further writes). -/
theorem C6_close_lifecycle (st : LoggerState) (w : World) (ts ts2 : String) (p : String)
    (calls : List EmitCall) (w3 : World) (h : st.fileStream = some p) :
    (Logger.close st w ts).2 = w.appendFile p ("[" ++ ts ++ "] Session ended\n") ∧
    (Logger.close st w ts).1.fileStream = none ∧
    Logger.close (Logger.close st w ts).1 (Logger.close st w ts).2 ts2
      = ((Logger.close st w ts).1, (Logger.close st w ts).2) ∧
    (runEmits (Logger.close st w ts).1 (Logger.close st w ts).2 calls = Except.ok w3 →
      w3 = (Logger.close st w ts).2) := by
  have hc : Logger.close st w ts
      = ({ st with fileStream := none }, w.appendFile p ("[" ++ ts ++ "] Session ended\n")) := by
    simp [Logger.close, h]
  rw [hc]
  refine ⟨rfl, rfl, rfl, ?_⟩
  exact fun hw => runEmits_no_stream _ rfl calls _ w3 hw

/-- Witness for C6 on a concrete open stream, with the quiescence
hypothesis discharged on a concrete emitting call. -/
theorem C6_witness :
    (Logger.close stInfoStream w0 "t2").2
      = w0.appendFile "/l" ("[" ++ "t2" ++ "] Session ended\n") ∧
    (Logger.close stInfoStream w0 "t2").1.fileStream = none ∧
    Logger.close (Logger.close stInfoStream w0 "t2").1 (Logger.close stInfoStream w0 "t2").2 "t4"
      = ((Logger.close stInfoStream w0 "t2").1, (Logger.close stInfoStream w0 "t2").2) ∧
    (Logger.close stInfoStream w0 "t2").2 = (Logger.close stInfoStream w0 "t2").2 :=
  have h := C6_close_lifecycle stInfoStream w0 "t2" "t4" "/l" [EmitCall.info "x" "t3"]
      ((Logger.close stInfoStream w0 "t2").2) rfl
  ⟨h.1, h.2.1, h.2.2.1, h.2.2.2 rfl⟩

/-! ### Claim C9: the setDebug / isDebugEnabled toggle -/

/-- C9: from every state, `setDebug true` then `isDebugEnabled` is true,
`setDebug false` then `isDebugEnabled` is false, and `setDebug` only
ever sets the level to debug or info. -/
theorem C9_setDebug_toggle (st : LoggerState) :
    Logger.isDebugEnabled (Logger.setDebug st true) = true ∧
    Logger.isDebugEnabled (Logger.setDebug st false) = false ∧
    ∀ b : Bool, (Logger.setDebug st b).config.level = LogLevel.debug ∨
      (Logger.setDebug st b).config.level = LogLevel.info := by
  refine ⟨rfl, rfl, ?_⟩
  intro b
  cases b
  · exact Or.inr rfl
  · exact Or.inl rfl

/-! ### Claim C10: truthiness tests on the body and the file path -/

/-- C10: a falsy `body` argument produces exactly the command produced
with no body at all (no `-d` segment), and an empty-string `file`
configuration resolves to the default path, with `init` behaving (on
stream and world) exactly as with no file configured. -/
theorem C10_falsy_handling (st : LoggerState) (w : World) (m u ts : String)
    (hdrs : Option (List (String × String))) (v : JsVal) (st2 : LoggerState) (w2 : World)
    (lv : LogLevel) (env : Env) (ts2 : String) (hv : v.truthy = false) :
    Logger.logCurl st w m u hdrs (some v) ts = Logger.logCurl st w m u hdrs none ts ∧
    effectiveLogPath { level := lv, file := some "" } = defaultLogPath ∧
    (Logger.init st2 w2 { level := lv, file := some "" } env ts2).1.fileStream
      = (Logger.init st2 w2 { level := lv, file := none } env ts2).1.fileStream ∧
    (Logger.init st2 w2 { level := lv, file := some "" } env ts2).2
      = (Logger.init st2 w2 { level := lv, file := none } env ts2).2 := by
  have hpath : effectiveLogPath { level := lv, file := some "" } = defaultLogPath := by
    simp [effectiveLogPath]
  have hpath2 : effectiveLogPath { level := lv, file := none } = defaultLogPath := rfl
  refine ⟨?_, hpath, ?_, ?_⟩
  · rcases hg : Logger.shouldLog st .debug with _ | _
    · simp [Logger.logCurl, hg]
    · simp [Logger.logCurl, hg, hv]
  · rcases hf : initFailure env defaultLogPath with _ | _
    · rw [init_success st2 w2 { level := lv, file := some "" } env ts2 (by rw [hpath]; exact hf),
        init_success st2 w2 { level := lv, file := none } env ts2 (by rw [hpath2]; exact hf)]
      simp [hpath, hpath2]
    · rw [init_fail_eq st2 w2 { level := lv, file := some "" } env ts2 (by rw [hpath]; exact hf),
        init_fail_eq st2 w2 { level := lv, file := none } env ts2 (by rw [hpath2]; exact hf)]
  · rcases hf : initFailure env defaultLogPath with _ | _
    · rw [init_success st2 w2 { level := lv, file := some "" } env ts2 (by rw [hpath]; exact hf),
        init_success st2 w2 { level := lv, file := none } env ts2 (by rw [hpath2]; exact hf)]
      rw [hpath, hpath2]
    · rw [init_fail_eq st2 w2 { level := lv, file := some "" } env ts2 (by rw [hpath]; exact hf),
        init_fail_eq st2 w2 { level := lv, file := none } env ts2 (by rw [hpath2]; exact hf)]
      rw [hpath, hpath2]

/-- Witness for C10 at each falsy body value (empty string, 0, false,
null) and at the empty-string file path. -/
theorem C10_witness :
    Logger.logCurl stDbg w0 "POST" "http://x" none (some (JsVal.vStr "")) "t"
      = Logger.logCurl stDbg w0 "POST" "http://x" none none "t" ∧
    Logger.logCurl stDbg w0 "POST" "http://x" none (some (JsVal.vNum 0)) "t"
      = Logger.logCurl stDbg w0 "POST" "http://x" none none "t" ∧
    Logger.logCurl stDbg w0 "POST" "http://x" none (some (JsVal.vBool false)) "t"
      = Logger.logCurl stDbg w0 "POST" "http://x" none none "t" ∧
    Logger.logCurl stDbg w0 "POST" "http://x" none (some JsVal.vNull) "t"
      = Logger.logCurl stDbg w0 "POST" "http://x" none none "t" ∧
    effectiveLogPath { level := LogLevel.info, file := some "" } = defaultLogPath :=
  ⟨(C10_falsy_handling stDbg w0 "POST" "http://x" "t" none (JsVal.vStr "") st0 w0 .info env0
      "t2" rfl).1,
   (C10_falsy_handling stDbg w0 "POST" "http://x" "t" none (JsVal.vNum 0) st0 w0 .info env0
      "t2" rfl).1,
   (C10_falsy_handling stDbg w0 "POST" "http://x" "t" none (JsVal.vBool false) st0 w0 .info env0
      "t2" rfl).1,
   (C10_falsy_handling stDbg w0 "POST" "http://x" "t" none JsVal.vNull st0 w0 .info env0
      "t2" rfl).1,
   (C10_falsy_handling stDbg w0 "POST" "http://x" "t" none JsVal.vNull st0 w0 .info env0
      "t2" rfl).2.1⟩

/-! ### Claim C1: re-initialization with a different path -/

/-- C1 counterexample: initializing on `/a.log` and then on `/b.log`
leaves `/a.log` holding exactly the session-start text; no line of that
file is a session-end marker, contrary to the claim that its last line
is one (`init` closes the old stream without writing any marker). -/
theorem C1_counterexample :
    (Logger.init (Logger.init st0 w0 cfgA env0 "t1").1 (Logger.init st0 w0 cfgA env0 "t1").2
        cfgB env0 "t2").2.getFile "/a.log" = some "\n[t1] New session started\n" ∧
    ¬ ∃ ts : String, ("[" ++ ts ++ "] Session ended") ∈ linesOf "\n[t1] New session started\n" := by
  constructor
  · decide
  · rintro ⟨ts, hmem⟩
    have hl : linesOf "\n[t1] New session started\n" = ["", "[t1] New session started", ""] := by
      decide
    rw [hl] at hmem
    rcases List.mem_cons.mp hmem with h | hmem2
    · exact empty_ne_bracket ts "] Session ended" h.symm
    · rcases List.mem_cons.mp hmem2 with h | hmem3
      · exact ne_of_data_suffix "[t1] New session started" ("[" ++ ts ++ "] Session ended")
          "ended".data (sessionEnd_suffix ts) (by decide) h.symm
      · rcases List.mem_cons.mp hmem3 with h | hmem4
        · exact empty_ne_bracket ts "] Session ended" h.symm
        · exact absurd hmem4 (List.not_mem_nil _)

/-- C1 (amended): re-initializing with a different path closes the first
stream and opens the second; the re-initialization writes nothing to the
first file (in particular no session-end marker — its content is
unchanged), and every subsequent record that passes the filter is
appended to the second file while the first stays untouched. -/
theorem C1_reinit_switch (st : LoggerState) (w : World) (cfg1 cfg2 : LoggerConfig) (env : Env)
    (ts1 ts2 : String)
    (h1 : initFailure env (effectiveLogPath cfg1) = false)
    (h2 : initFailure env (effectiveLogPath cfg2) = false)
    (hne : effectiveLogPath cfg1 ≠ effectiveLogPath cfg2) :
    (Logger.init st w cfg1 env ts1).1.fileStream = some (effectiveLogPath cfg1) ∧
    (Logger.init (Logger.init st w cfg1 env ts1).1 (Logger.init st w cfg1 env ts1).2 cfg2 env
        ts2).1.fileStream = some (effectiveLogPath cfg2) ∧
    (Logger.init (Logger.init st w cfg1 env ts1).1 (Logger.init st w cfg1 env ts1).2 cfg2 env
        ts2).2.getFile (effectiveLogPath cfg1)
      = (Logger.init st w cfg1 env ts1).2.getFile (effectiveLogPath cfg1) ∧
    (∀ (lv : LogLevel) (m ts3 : String),
      Logger.shouldLog (Logger.init (Logger.init st w cfg1 env ts1).1
          (Logger.init st w cfg1 env ts1).2 cfg2 env ts2).1 lv = true →
      (Logger.write (Logger.init (Logger.init st w cfg1 env ts1).1
            (Logger.init st w cfg1 env ts1).2 cfg2 env ts2).1
          (Logger.init (Logger.init st w cfg1 env ts1).1
            (Logger.init st w cfg1 env ts1).2 cfg2 env ts2).2 lv m ts3).getFile
          (effectiveLogPath cfg2)
        = some ((((Logger.init (Logger.init st w cfg1 env ts1).1
              (Logger.init st w cfg1 env ts1).2 cfg2 env ts2).2.getFile
              (effectiveLogPath cfg2)).getD "")
            ++ (Logger.formatMessage lv m ts3 ++ "\n")) ∧
      (Logger.write (Logger.init (Logger.init st w cfg1 env ts1).1
            (Logger.init st w cfg1 env ts1).2 cfg2 env ts2).1
          (Logger.init (Logger.init st w cfg1 env ts1).1
            (Logger.init st w cfg1 env ts1).2 cfg2 env ts2).2 lv m ts3).getFile
          (effectiveLogPath cfg1)
        = (Logger.init (Logger.init st w cfg1 env ts1).1
            (Logger.init st w cfg1 env ts1).2 cfg2 env ts2).2.getFile
            (effectiveLogPath cfg1)) := by
  have e1 := init_success st w cfg1 env ts1 h1
  rw [e1]
  have e2 := init_success ({ config := cfg1, fileStream := some (effectiveLogPath cfg1) })
      (w.appendFile (effectiveLogPath cfg1) ("\n[" ++ ts1 ++ "] New session started\n"))
      cfg2 env ts2 h2
  rw [e2]
  refine ⟨rfl, rfl, ?_, ?_⟩
  · exact getFile_appendFile_ne _ _ _ _ hne
  · intro lv m ts3 hlv
    rw [write_emits _ _ lv m ts3 (effectiveLogPath cfg2) hlv rfl]
    constructor
    · exact getFile_appendFile_self _ _ _
    · exact getFile_appendFile_ne _ _ _ _ hne

/-- Witness for C1 (amended) on the concrete double initialization
`/a.log` then `/b.log`, with a concrete info record emitted afterwards. -/
theorem C1_witness :
    (Logger.init st0 w0 cfgA env0 "t1").1.fileStream = some (effectiveLogPath cfgA) ∧
    (Logger.init (Logger.init st0 w0 cfgA env0 "t1").1 (Logger.init st0 w0 cfgA env0 "t1").2
        cfgB env0 "t2").1.fileStream = some (effectiveLogPath cfgB) ∧
    (Logger.init (Logger.init st0 w0 cfgA env0 "t1").1 (Logger.init st0 w0 cfgA env0 "t1").2
        cfgB env0 "t2").2.getFile (effectiveLogPath cfgA)
      = (Logger.init st0 w0 cfgA env0 "t1").2.getFile (effectiveLogPath cfgA) ∧
    (Logger.write (Logger.init (Logger.init st0 w0 cfgA env0 "t1").1
          (Logger.init st0 w0 cfgA env0 "t1").2 cfgB env0 "t2").1
        (Logger.init (Logger.init st0 w0 cfgA env0 "t1").1
          (Logger.init st0 w0 cfgA env0 "t1").2 cfgB env0 "t2").2 .info "m" "t3").getFile
        (effectiveLogPath cfgA)
      = (Logger.init (Logger.init st0 w0 cfgA env0 "t1").1
          (Logger.init st0 w0 cfgA env0 "t1").2 cfgB env0 "t2").2.getFile
          (effectiveLogPath cfgA) :=
  have h := C1_reinit_switch st0 w0 cfgA cfgB env0 "t1" "t2" (by decide) (by decide) (by decide)
  ⟨h.1, h.2.1, h.2.2.1, (h.2.2.2 .info "m" "t3" (by decide)).2⟩

/-! ### Claim C5: the session-start marker after initialization -/

/-- C5 counterexample: on a fresh file the content after `init` is
exactly `"\n[t1] New session started\n"`; the first new line is the
empty string, which does not match the session-start marker pattern
(the marker is only the second line, because the write begins with a
newline). -/
theorem C5_counterexample :
    (Logger.init st0 w0 cfgA env0 "t1").2.getFile "/a.log"
      = some "\n[t1] New session started\n" ∧
    (linesOf "\n[t1] New session started\n").head? = some "" ∧
    ¬ ∃ ts : String, (linesOf "\n[t1] New session started\n").head?
        = some ("[" ++ ts ++ "] New session started") := by
  refine ⟨by decide, by decide, ?_⟩
  rintro ⟨ts, h⟩
  have h0 : (linesOf "\n[t1] New session started\n").head? = some "" := by decide
  rw [h0] at h
  exact empty_ne_bracket ts "] New session started" (Option.some.inj h)

/-- C5 (amended): after a successful `initialize({file: F})` the file at
F exists and the appended text is exactly a newline followed by the
session-start marker line and a newline — so the first appended line is
empty and the second is the marker with the current timestamp. -/
theorem C5_init_marker (st : LoggerState) (w : World) (cfg : LoggerConfig) (env : Env)
    (ts : String) (h : initFailure env (effectiveLogPath cfg) = false) :
    (Logger.init st w cfg env ts).2.getFile (effectiveLogPath cfg)
      = some (((w.getFile (effectiveLogPath cfg)).getD "")
          ++ ("\n[" ++ ts ++ "] New session started\n")) ∧
    ((Logger.init st w cfg env ts).2.getFile (effectiveLogPath cfg)).isSome = true ∧
    ((∀ c ∈ ts.data, c ≠ '\n') →
      linesOf ("\n[" ++ ts ++ "] New session started\n")
        = ["", "[" ++ ts ++ "] New session started", ""]) := by
  rw [init_success st w cfg env ts h]
  refine ⟨getFile_appendFile_self w _ _, ?_, ?_⟩
  · rw [getFile_appendFile_self w _ _]
    rfl
  · intro hts
    have e2 : ("\n[" ++ ts ++ "] New session started\n").data
        = '\n' :: ((('[' :: ts.data) ++ "] New session started".data) ++ '\n' :: []) := by
      have d1 : ("\n[" ++ ts ++ "] New session started\n").data
          = ("\n[".data ++ ts.data) ++ "] New session started\n".data := by
        rw [String.data_append, String.data_append]
      have d2 : "\n[".data = ['\n', '['] := rfl
      have d3 : "] New session started\n".data = "] New session started".data ++ '\n' :: [] := rfl
      rw [d1, d2, d3]
      simp
    have hclean : ∀ c ∈ ('[' :: ts.data) ++ "] New session started".data, c ≠ '\n' := by
      intro c hc
      rcases List.mem_append.mp hc with hc1 | hc2
      · rcases List.mem_cons.mp hc1 with hc3 | hc4
        · rw [hc3]; decide
        · exact hts c hc4
      · have hlit : ∀ x ∈ "] New session started".data, x ≠ '\n' := by decide
        exact hlit c hc2
    have hXd : ("[" ++ ts ++ "] New session started").data
        = ('[' :: ts.data) ++ "] New session started".data := by
      rw [String.data_append, String.data_append]
      have : "[".data = ['['] := rfl
      rw [this]
      simp
    unfold linesOf
    rw [e2]
    have step : splitLinesAux
        ('\n' :: ((('[' :: ts.data) ++ "] New session started".data) ++ '\n' :: [])) []
        = "" :: splitLinesAux ((('[' :: ts.data) ++ "] New session started".data) ++ '\n' :: [])
            [] := by
      simp [splitLinesAux]
    rw [step, splitLinesAux_clean (('[' :: ts.data) ++ "] New session started".data) [] [] hclean]
    have hfin : splitLinesAux ([] : List Char) ([] : List Char) = [""] := rfl
    rw [hfin]
    have hmk : String.mk (List.reverse [] ++ (('[' :: ts.data) ++ "] New session started".data))
        = "[" ++ ts ++ "] New session started" := by
      rw [List.reverse_nil, List.nil_append, ← hXd, string_mk_data]
    rw [hmk]

/-- Witness for C5 (amended) on a fresh file and the timestamp `t1`. -/
theorem C5_witness :
    (Logger.init st0 w0 cfgA env0 "t1").2.getFile (effectiveLogPath cfgA)
      = some (((w0.getFile (effectiveLogPath cfgA)).getD "")
          ++ ("\n[" ++ "t1" ++ "] New session started\n")) ∧
    ((Logger.init st0 w0 cfgA env0 "t1").2.getFile (effectiveLogPath cfgA)).isSome = true ∧
    linesOf ("\n[" ++ "t1" ++ "] New session started\n")
      = ["", "[" ++ "t1" ++ "] New session started", ""] :=
  have h := C5_init_marker st0 w0 cfgA env0 "t1" (by decide)
  ⟨h.1, h.2.1, h.2.2 (by decide)⟩

/-! ### Claim C2: gating, discarding, and the single destination -/

/-- C2 counterexample: the claim says every suppressed emitting call
returns with no observable effect and performs no serialization work,
for every payload including non-serializable ones; but `debug`
serializes its payload before the gate inside `write`, so a suppressed
debug call with a non-serializable payload throws instead of
returning. -/
theorem C2_counterexample :
    ¬ (∀ (st : LoggerState) (w : World) (m : String) (d : Option JsVal) (ts : String),
        LOG_LEVEL_PRIORITY .debug < LOG_LEVEL_PRIORITY st.config.level →
        ∃ w2, Logger.debug st w m d ts = Except.ok w2) := by
  intro hall
  rcases hall stInfoStream w0 "m" (some (JsVal.vBigInt 1)) "t" (by decide) with ⟨w2, hw⟩
  have hcomp : Logger.debug stInfoStream w0 "m" (some (JsVal.vBigInt 1)) "t"
      = Except.error () := rfl
  rw [hcomp] at hw
  exact Except.noConfusion hw

/-- A logger whose threshold is error with an open stream on `/l`. -/
def stErrOnly : LoggerState :=
  { config := { level := .error, file := some "/l" }, fileStream := some "/l" }

/-- C2 (amended): `logCurl` and `logApiResponse` gate before any work,
so suppressed calls return the world unchanged even for
non-serializable payloads; suppressed `info`/`warn` calls have no
effect; a suppressed `debug` call that returns at all returns the world
unchanged (its payload serialization runs before the gate and may
throw); a record passing the filter with no open stream is silently
discarded; and `write` touches no destination other than the current
file of the current stream. -/
theorem C2_emission_gating (st : LoggerState) (w : World) (m u nm msg : String)
    (hdrs : Option (List (String × String))) (b : Option JsVal) (rv : JsVal)
    (d : Option JsVal) (ts : String) (lv : LogLevel) (p q : String) :
    (Logger.shouldLog st .debug = false →
      Logger.logCurl st w m u hdrs b ts = Except.ok w ∧
      Logger.logApiResponse st w nm rv ts = Except.ok w) ∧
    (Logger.shouldLog st .info = false → Logger.info st w msg ts = w) ∧
    (Logger.shouldLog st .warn = false → Logger.warn st w msg ts = w) ∧
    (Logger.shouldLog st .debug = false →
      ∀ w2, Logger.debug st w msg d ts = Except.ok w2 → w2 = w) ∧
    (st.fileStream = none → Logger.write st w lv msg ts = w) ∧
    (st.fileStream = some p → q ≠ p →
      (Logger.write st w lv msg ts).getFile q = w.getFile q ∧
      (Logger.write st w lv msg ts).console = w.console) := by
  refine ⟨?_, ?_, ?_, ?_, ?_, ?_⟩
  · intro hg
    constructor
    · simp [Logger.logCurl, hg]
    · simp [Logger.logApiResponse, hg]
  · intro hg
    exact write_not_should st w .info msg ts hg
  · intro hg
    exact write_not_should st w .warn msg ts hg
  · intro hg w2 hw
    cases d with
    | none =>
        rw [debug_none_eq, write_not_should st w .debug msg ts hg] at hw
        exact (Except.ok.inj hw).symm
    | some v =>
        rcases hv : jsonStringifyPretty v with u2 | s
        · rw [show Logger.debug st w msg (some v) ts = Except.error () from by
            simp [Logger.debug, hv]] at hw
          exact Except.noConfusion hw
        · have hred : Logger.debug st w msg (some v) ts
              = Except.ok (Logger.write st w .debug (msg ++ "\n" ++ s) ts) := by
            simp [Logger.debug, hv]
          rw [hred, write_not_should st w .debug _ ts hg] at hw
          exact (Except.ok.inj hw).symm
  · intro hn
    exact write_no_stream st w lv msg ts hn
  · intro hp hq
    rcases hsl : Logger.shouldLog st lv with _ | _
    · rw [write_not_should st w lv msg ts hsl]
      exact ⟨rfl, rfl⟩
    · rw [write_emits st w lv msg ts p hsl hp]
      exact ⟨getFile_appendFile_ne _ _ _ _ hq, console_appendFile _ _ _⟩

/-- Witness for C2 (amended) at concrete states: an error-threshold
logger suppresses debug/info/warn (including a debug-only helper fed a
non-serializable payload), a streamless logger discards a passing
record, and a write never touches another file or the console. -/
theorem C2_witness :
    Logger.logCurl stErrOnly w0 "POST" "http://x" none (some (JsVal.vBigInt 1)) "t"
      = Except.ok w0 ∧
    Logger.logApiResponse stErrOnly w0 "api" (JsVal.vBigInt 1) "t" = Except.ok w0 ∧
    Logger.info stErrOnly w0 "m" "t" = w0 ∧
    Logger.warn stErrOnly w0 "m" "t" = w0 ∧
    Logger.write st0 w0 .info "m" "t" = w0 ∧
    (Logger.write stInfoStream w0 .info "m" "t").getFile "/other" = w0.getFile "/other" ∧
    (Logger.write stInfoStream w0 .info "m" "t").console = w0.console :=
  have h1 := C2_emission_gating stErrOnly w0 "POST" "http://x" "api" "m" none
      (some (JsVal.vBigInt 1)) (JsVal.vBigInt 1) none "t" .info "/l" "/other"
  have h2 := C2_emission_gating st0 w0 "POST" "http://x" "api" "m" none
      (some (JsVal.vBigInt 1)) (JsVal.vBigInt 1) none "t" .info "/l" "/other"
  have h3 := C2_emission_gating stInfoStream w0 "POST" "http://x" "api" "m" none
      (some (JsVal.vBigInt 1)) (JsVal.vBigInt 1) none "t" .info "/l" "/other"
  ⟨(h1.1 (by decide)).1, (h1.1 (by decide)).2, h1.2.1 (by decide), h1.2.2.1 (by decide),
   h2.2.2.2.2.1 rfl, (h3.2.2.2.2.2 rfl (by decide)).1, (h3.2.2.2.2.2 rfl (by decide)).2⟩

/-! ### Claim C8: error payload rendering -/

theorem linesOf_append_newline (a b : String) (ha : ∀ c ∈ a.data, c ≠ '\n') :
    linesOf (a ++ "\n" ++ b) = a :: linesOf b := by
  unfold linesOf
  have hd : (a ++ "\n" ++ b).data = a.data ++ '\n' :: b.data := by
    rw [String.data_append, String.data_append]
    have : "\n".data = ['\n'] := rfl
    rw [this]
    simp
  rw [hd, splitLinesAux_clean a.data b.data [] ha]
  simp [string_mk_data]

/-- C8 counterexample: the claim says any defined non-`Error` value has
its pretty-printed serialization appended; but for a non-serializable
value (BigInt) the call throws and nothing is appended at all. -/
theorem C8_counterexample :
    ¬ (∀ (st : LoggerState) (w : World) (m : String) (v : JsVal) (ts : String),
        ∃ w2, Logger.error st w m (some (ErrArg.value v)) ts = Except.ok w2) := by
  intro hall
  rcases hall stInfoStream w0 "m" (JsVal.vBigInt 1) "t" with ⟨w2, hw⟩
  have hcomp : Logger.error stInfoStream w0 "m" (some (ErrArg.value (JsVal.vBigInt 1))) "t"
      = Except.error () := rfl
  rw [hcomp] at hw
  exact Except.noConfusion hw

/-- C8 (amended): the error level always passes the filter; with a
stream open, `error(message, err)` with an `Error` value appends one
record carrying the message on its first line and the error description
on the next; with any other defined value whose serialization succeeds,
the pretty-printed serialization is appended instead (a value whose
serialization throws produces no record, surfacing the failure). -/
theorem C8_error_payloads (st : LoggerState) (w : World) (m em : String) (stk : Option String)
    (v : JsVal) (s ts p : String) (hp : st.fileStream = some p) :
    Logger.shouldLog st .error = true ∧
    Logger.error st w m (some (.errObj em stk)) ts
      = Except.ok (w.appendFile p
          (Logger.formatMessage .error (m ++ "\n" ++ em ++ "\n" ++ stk.getD "") ts ++ "\n")) ∧
    (jsonStringifyPretty v = Except.ok s →
      Logger.error st w m (some (.value v)) ts
        = Except.ok (w.appendFile p
            (Logger.formatMessage .error (m ++ "\n" ++ s) ts ++ "\n"))) ∧
    ((∀ c ∈ ts.data, c ≠ '\n') → (∀ c ∈ m.data, c ≠ '\n') → (∀ c ∈ em.data, c ≠ '\n') →
      linesOf (Logger.formatMessage .error (m ++ "\n" ++ em ++ "\n" ++ stk.getD "") ts)
        = ("[" ++ ts ++ "] [ERROR] " ++ m) :: em :: linesOf (stk.getD "")) := by
  refine ⟨shouldLog_error_always st, ?_, ?_, ?_⟩
  · rw [show Logger.error st w m (some (.errObj em stk)) ts
        = Except.ok (Logger.write st w .error (m ++ "\n" ++ em ++ "\n" ++ stk.getD "") ts)
      from rfl]
    rw [write_emits st w .error _ ts p (shouldLog_error_always st) hp]
  · intro hv
    have hred : Logger.error st w m (some (.value v)) ts
        = Except.ok (Logger.write st w .error (m ++ "\n" ++ s) ts) := by
      simp [Logger.error, hv]
    rw [hred, write_emits st w .error _ ts p (shouldLog_error_always st) hp]
  · intro hts hm hem
    have lit1 : ("] [" : String) ++ "ERROR" ++ "] " = "] [ERROR] " := rfl
    have hF : Logger.formatMessage .error (m ++ "\n" ++ em ++ "\n" ++ stk.getD "") ts
        = ("[" ++ ts ++ "] [ERROR] " ++ m) ++ "\n" ++ (em ++ "\n" ++ stk.getD "") := by
      rw [← lit1]
      apply String.ext
      simp [Logger.formatMessage, LogLevel.upper, String.data_append, List.append_assoc]
    have hA : ∀ c ∈ ("[" ++ ts ++ "] [ERROR] " ++ m).data, c ≠ '\n' := by
      intro c hc
      rw [String.data_append, String.data_append, String.data_append] at hc
      rcases List.mem_append.mp hc with hc1 | hcm
      · rcases List.mem_append.mp hc1 with hc2 | hclit
        · rcases List.mem_append.mp hc2 with hcbr | hcts
          · have hx : ∀ x ∈ "[".data, x ≠ '\n' := by decide
            exact hx c hcbr
          · exact hts c hcts
        · have hx : ∀ x ∈ "] [ERROR] ".data, x ≠ '\n' := by decide
          exact hx c hclit
      · exact hm c hcm
    rw [hF, linesOf_append_newline _ _ hA, linesOf_append_newline _ _ hem]

/-- Witness for C8 (amended): `error("boom", new Error("oops"))` with a
stack `"st"` produces one record whose lines are the header with
`"boom"`, then `"oops"`, then the stack. -/
theorem C8_witness :
    Logger.shouldLog stInfoStream .error = true ∧
    Logger.error stInfoStream w0 "boom" (some (.errObj "oops" (some "st"))) "t"
      = Except.ok (w0.appendFile "/l"
          (Logger.formatMessage .error ("boom" ++ "\n" ++ "oops" ++ "\n" ++ "st") "t" ++ "\n")) ∧
    linesOf (Logger.formatMessage .error ("boom" ++ "\n" ++ "oops" ++ "\n" ++ "st") "t")
      = [("[" ++ "t" ++ "] [ERROR] " ++ "boom"), "oops", "st"] := by
  have h := C8_error_payloads stInfoStream w0 "boom" "oops" (some "st") JsVal.vNull "null" "t"
      "/l" rfl
  have hr := h.2.2.2 (by decide) (by decide) (by decide)
  refine ⟨h.1, h.2.1, ?_⟩
  rw [show ("boom" ++ "\n" ++ "oops" ++ "\n" ++ "st" : String)
      = ("boom" ++ "\n" ++ "oops" ++ "\n" ++ (some "st").getD "") from rfl, hr]
  rfl

/-! ### Claim C7: the curl command builder -/

theorem infix_of_middle (pre seg post : String) :
    seg.data <:+: (pre ++ seg ++ post).data := by
  refine ⟨pre.data, post.data, ?_⟩
  rw [String.data_append, String.data_append]

theorem infix_extend_right (l : List Char) (a b : String) (h : l <:+: a.data) :
    l <:+: (a ++ b).data := by
  rcases h with ⟨s, t, hst⟩
  refine ⟨s, t ++ b.data, ?_⟩
  rw [String.data_append, ← hst]
  simp [List.append_assoc]

theorem infix_extend_left (l : List Char) (a b : String) (h : l <:+: b.data) :
    l <:+: (a ++ b).data := by
  rcases h with ⟨s, t, hst⟩
  refine ⟨a.data ++ s, t, ?_⟩
  rw [String.data_append, ← hst]
  simp [List.append_assoc]

theorem foldl_curl_base (hs : List (String × String)) (base : String) :
    ∃ rest, hs.foldl (fun acc kv => acc ++ " \\\n  -H \x27" ++ kv.1 ++ ": " ++ kv.2 ++ "\x27")
        base = base ++ rest := by
  induction hs generalizing base with
  | nil => exact ⟨"", by simp⟩
  | cons x t ih =>
      rcases ih (base ++ " \\\n  -H \x27" ++ x.1 ++ ": " ++ x.2 ++ "\x27") with ⟨r, hr⟩
      refine ⟨" \\\n  -H \x27" ++ x.1 ++ ": " ++ x.2 ++ "\x27" ++ r, ?_⟩
      rw [List.foldl_cons, hr]
      simp [String.append_assoc]

theorem headerSegInFold (k v : String) (hs : List (String × String)) :
    ∀ base : String, (k, v) ∈ hs →
      ("-H \x27" ++ k ++ ": " ++ v ++ "\x27").data
        <:+: (hs.foldl
            (fun acc kv => acc ++ " \\\n  -H \x27" ++ kv.1 ++ ": " ++ kv.2 ++ "\x27")
            base).data := by
  induction hs with
  | nil =>
      intro base h
      exact absurd h (List.not_mem_nil _)
  | cons x t ih =>
      intro base h
      rw [List.foldl_cons]
      rcases List.mem_cons.mp h with hx | ht
      · obtain ⟨k2, v2⟩ := x
        injection hx with hk hv
        subst hk
        subst hv
        rcases foldl_curl_base t (base ++ " \\\n  -H \x27" ++ k ++ ": " ++ v ++ "\x27") with
          ⟨r, hr⟩
        rw [hr]
        have hsplit : base ++ " \\\n  -H \x27" ++ k ++ ": " ++ v ++ "\x27" ++ r
            = (base ++ " \\\n  ") ++ ("-H \x27" ++ k ++ ": " ++ v ++ "\x27") ++ r := by
          apply String.ext
          simp [String.data_append, List.append_assoc]
        rw [hsplit]
        exact infix_of_middle _ _ _
      · exact ih (base ++ " \\\n  -H \x27" ++ x.1 ++ ": " ++ x.2 ++ "\x27") ht

theorem curl_body_split (W s : String) :
    W ++ " \\\n  -d \x27" ++ s ++ "\x27" = (W ++ " \\\n  ") ++ ("-d \x27" ++ s ++ "\x27") := by
  apply String.ext
  simp [String.data_append, List.append_assoc]

/-- C7 counterexample: a body argument is supplied (the empty string)
with debug enabled, yet the emitted entry contains no `-d` segment at
all — `logCurl` tests the body for truthiness, not presence, so the
reading of the claim that a given body always yields a body segment fails. -/
theorem C7_counterexample :
    Except.map (fun w => (w.getFile "/l").getD "")
        (Logger.logCurl stDbg w0 "POST" "http://x" none (some (JsVal.vStr "")) "t")
      = Except.ok "[t] [DEBUG] API Call:\ncurl -X POST \x27http://x\x27\n" ∧
    ¬ ("-d".data <:+: "[t] [DEBUG] API Call:\ncurl -X POST \x27http://x\x27\n".data) :=
  ⟨rfl, by decide⟩

/-- C7 (amended): when debug is disabled `logCurl` returns untouched
before any string building (even a non-serializable body cannot make it
throw); when debug is enabled with an open stream it emits exactly one
debug entry whose command contains the single-quoted method and URL
header, one single-quoted `-H` segment per header entry, and — when
the body is truthy and serializes — a single-quoted `-d` segment with the body verbatim
when it is a string and JSON-serialized otherwise. -/
theorem C7_curl_format (st : LoggerState) (w : World) (method url : String)
    (hdrs : Option (List (String × String))) (body : Option JsVal) (ts p : String) :
    (Logger.shouldLog st .debug = false →
      Logger.logCurl st w method url hdrs body ts = Except.ok w) ∧
    (Logger.shouldLog st .debug = true → st.fileStream = some p →
      ∃ C : String,
        Logger.logCurl st w method url hdrs none ts
          = Except.ok (w.appendFile p
              (Logger.formatMessage .debug ("API Call:\n" ++ C) ts ++ "\n")) ∧
        ("curl -X " ++ method ++ " \x27" ++ url ++ "\x27").data <:+: C.data ∧
        (∀ k v hs2, hdrs = some hs2 → (k, v) ∈ hs2 →
          ("-H \x27" ++ k ++ ": " ++ v ++ "\x27").data <:+: C.data)) ∧
    (∀ bv s, Logger.shouldLog st .debug = true → st.fileStream = some p →
      bv.truthy = true → jsBodyString bv = Except.ok s →
      ∃ C : String,
        Logger.logCurl st w method url hdrs (some bv) ts
          = Except.ok (w.appendFile p
              (Logger.formatMessage .debug ("API Call:\n" ++ C) ts ++ "\n")) ∧
        ("curl -X " ++ method ++ " \x27" ++ url ++ "\x27").data <:+: C.data ∧
        (∀ k v hs2, hdrs = some hs2 → (k, v) ∈ hs2 →
          ("-H \x27" ++ k ++ ": " ++ v ++ "\x27").data <:+: C.data) ∧
        ("-d \x27" ++ s ++ "\x27").data <:+: C.data) := by
  refine ⟨?_, ?_, ?_⟩
  · intro hg
    simp [Logger.logCurl, hg]
  · intro hg hp
    cases hdrs with
    | none =>
        refine ⟨"curl -X " ++ method ++ " \x27" ++ url ++ "\x27", ?_, List.infix_refl _, ?_⟩
        · have hred : Logger.logCurl st w method url none none ts
              = Except.ok (Logger.write st w .debug
                  ("API Call:\n" ++ ("curl -X " ++ method ++ " \x27" ++ url ++ "\x27")) ts) := by
            simp [Logger.logCurl, hg, debug_none_eq]
          rw [hred, write_emits st w .debug _ ts p hg hp]
        · intro k v hs2 hcontra _
          exact absurd hcontra (by simp)
    | some hs2 =>
        refine ⟨hs2.foldl (fun acc kv => acc ++ " \\\n  -H \x27" ++ kv.1 ++ ": " ++ kv.2 ++ "\x27")
            ("curl -X " ++ method ++ " \x27" ++ url ++ "\x27"), ?_, ?_, ?_⟩
        · have hred : Logger.logCurl st w method url (some hs2) none ts
              = Except.ok (Logger.write st w .debug
                  ("API Call:\n" ++ hs2.foldl
                    (fun acc kv => acc ++ " \\\n  -H \x27" ++ kv.1 ++ ": " ++ kv.2 ++ "\x27")
                    ("curl -X " ++ method ++ " \x27" ++ url ++ "\x27")) ts) := by
            simp [Logger.logCurl, hg, debug_none_eq]
          rw [hred, write_emits st w .debug _ ts p hg hp]
        · rcases foldl_curl_base hs2 ("curl -X " ++ method ++ " \x27" ++ url ++ "\x27") with
            ⟨r, hr⟩
          rw [hr]
          exact infix_extend_right _ _ _ (List.infix_refl _)
        · intro k v hs3 heq hmem
          injection heq with heq2
          subst heq2
          exact headerSegInFold k v _ _ hmem
  · intro bv s hg hp htr hser
    cases hdrs with
    | none =>
        refine ⟨("curl -X " ++ method ++ " \x27" ++ url ++ "\x27") ++ " \\\n  -d \x27" ++ s
            ++ "\x27", ?_, ?_, ?_, ?_⟩
        · have hred : Logger.logCurl st w method url none (some bv) ts
              = Except.ok (Logger.write st w .debug
                  ("API Call:\n" ++ (("curl -X " ++ method ++ " \x27" ++ url ++ "\x27")
                    ++ " \\\n  -d \x27" ++ s ++ "\x27")) ts) := by
            simp [Logger.logCurl, hg, htr, hser, debug_none_eq]
          rw [hred, write_emits st w .debug _ ts p hg hp]
        · exact infix_extend_right _ _ _ (infix_extend_right _ _ _
            (infix_extend_right _ _ _ (List.infix_refl _)))
        · intro k v hs2 hcontra _
          exact absurd hcontra (by simp)
        · rw [curl_body_split]
          exact infix_extend_left _ _ _ (List.infix_refl _)
    | some hs2 =>
        refine ⟨(hs2.foldl (fun acc kv => acc ++ " \\\n  -H \x27" ++ kv.1 ++ ": " ++ kv.2
            ++ "\x27") ("curl -X " ++ method ++ " \x27" ++ url ++ "\x27")) ++ " \\\n  -d \x27"
            ++ s ++ "\x27", ?_, ?_, ?_, ?_⟩
        · have hred : Logger.logCurl st w method url (some hs2) (some bv) ts
              = Except.ok (Logger.write st w .debug
                  ("API Call:\n" ++ ((hs2.foldl
                    (fun acc kv => acc ++ " \\\n  -H \x27" ++ kv.1 ++ ": " ++ kv.2 ++ "\x27")
                    ("curl -X " ++ method ++ " \x27" ++ url ++ "\x27"))
                    ++ " \\\n  -d \x27" ++ s ++ "\x27")) ts) := by
            simp [Logger.logCurl, hg, htr, hser, debug_none_eq]
          rw [hred, write_emits st w .debug _ ts p hg hp]
        · rcases foldl_curl_base hs2 ("curl -X " ++ method ++ " \x27" ++ url ++ "\x27") with
            ⟨r, hr⟩
          rw [hr]
          exact infix_extend_right _ _ _ (infix_extend_right _ _ _
            (infix_extend_right _ _ _ (infix_extend_right _ _ _ (List.infix_refl _))))
        · intro k v hs3 heq hmem
          injection heq with heq2
          subst heq2
          exact infix_extend_right _ _ _ (infix_extend_right _ _ _
            (infix_extend_right _ _ _ (headerSegInFold k v _ _ hmem)))
        · rw [curl_body_split]
          exact infix_extend_left _ _ _ (List.infix_refl _)

/-- Witness for C7: the example from the claim, `logCurl("POST",
"http://x/y", {A:"B"}, {k:1})` at debug level produces exactly the
expected record with all three segments, and at info level the theorem
gives back an unchanged world. -/
theorem C7_witness :
    Logger.logCurl stInfoStream w0 "POST" "http://x/y" (some [("A", "B")])
        (some (JsVal.vObj (JsObj.cons "k" (JsVal.vNum 1) JsObj.nil))) "t" = Except.ok w0 ∧
    Except.map (fun w => (w.getFile "/l").getD "")
        (Logger.logCurl stDbg w0 "POST" "http://x/y" (some [("A", "B")])
          (some (JsVal.vObj (JsObj.cons "k" (JsVal.vNum 1) JsObj.nil))) "t")
      = Except.ok ("[t] [DEBUG] API Call:\ncurl -X POST \x27http://x/y\x27 \\\n  -H \x27A: B\x27"
          ++ " \\\n  -d \x27\x7b\"k\":1\x7d\x27\n") ∧
    ("curl -X POST \x27http://x/y\x27").data
      <:+: ("curl -X POST \x27http://x/y\x27 \\\n  -H \x27A: B\x27 \\\n  -d \x27\x7b\"k\":1\x7d\x27").data ∧
    ("-H \x27A: B\x27").data
      <:+: ("curl -X POST \x27http://x/y\x27 \\\n  -H \x27A: B\x27 \\\n  -d \x27\x7b\"k\":1\x7d\x27").data ∧
    ("-d \x27\x7b\"k\":1\x7d\x27").data
      <:+: ("curl -X POST \x27http://x/y\x27 \\\n  -H \x27A: B\x27 \\\n  -d \x27\x7b\"k\":1\x7d\x27").data :=
  ⟨(C7_curl_format stInfoStream w0 "POST" "http://x/y" (some [("A", "B")])
      (some (JsVal.vObj (JsObj.cons "k" (JsVal.vNum 1) JsObj.nil))) "t" "/l").1 (by decide),
   rfl, by decide, by decide, by decide⟩
